import Mathlib

/-!
Shallow embedding of the solarSim plant simulator (src/solarSim) for
verification: register files (pymodbus datastores), the device modules
(modules.py), the device-graph builder and tick loop (simulator.py),
and the weather state machine (SimulationController.update).

Python floats are modelled as exact rationals, Python ints as ℤ.
-/

namespace SolarSim

/-- Truncation toward zero, the behaviour of Python's `int()` on a number. -/
def pyInt (q : ℚ) : ℤ :=
  if 0 ≤ q then ⌊q⌋ else ⌈q⌉

/-- Overwrite elements of `l` starting at index `a` with the values `vs`,
as `ModbusSequentialDataBlock.setValues` does on its backing list. -/
def listSet : List ℤ → ℕ → List ℤ → List ℤ
  | l, _, [] => l
  | l, a, v :: vs => listSet (l.set a v) (a + 1) vs

/-- One per-device register file: the four banks of a `ModbusSlaveContext`
(discrete inputs, coils, holding registers, input registers). -/
structure RegFile where
  di : List ℤ
  co : List ℤ
  hr : List ℤ
  ir : List ℤ
deriving DecidableEq, Repr

/-- The function-code to bank mapping used by `ModbusSlaveContext`:
1 = coils, 2 = discrete inputs, 3 = holding registers, 4 = input registers. -/
def RegFile.setValues (rf : RegFile) (fx : ℕ) (a : ℕ) (vs : List ℤ) : RegFile :=
  match fx with
  | 1 => { rf with co := listSet rf.co a vs }
  | 2 => { rf with di := listSet rf.di a vs }
  | 3 => { rf with hr := listSet rf.hr a vs }
  | 4 => { rf with ir := listSet rf.ir a vs }
  | _ => rf

/-- Read `count` cells of the bank selected by `fx` starting at address `a`. -/
def RegFile.getValues (rf : RegFile) (fx : ℕ) (a : ℕ) (count : ℕ) : List ℤ :=
  match fx with
  | 1 => (rf.co.drop a).take count
  | 2 => (rf.di.drop a).take count
  | 3 => (rf.hr.drop a).take count
  | 4 => (rf.ir.drop a).take count
  | _ => []

/-- The base datastore of dataStores.py: four banks of 100 zero cells. -/
def baseDataStore : RegFile :=
  ⟨List.replicate 100 0, List.replicate 100 0,
   List.replicate 100 0, List.replicate 100 0⟩

/-! ## Inverter (modules.py, class Inverter) -/

/-- State of a sim inverter module.  Defaults are those of
`Inverter.__init__`. -/
structure Inverter where
  irradiance : ℚ := 0
  realPowerSp : ℚ := 2000
  reactivePowerSp : ℚ := 0
  isEnabled : Bool := true
  maxRealPower : ℚ := 2000
  maxReactivePower : ℚ := 1500
  voltageL1 : ℚ := 34
  voltageL2 : ℚ := 34
  voltageL3 : ℚ := 34
deriving DecidableEq, Repr

/-- `Inverter.realPower` property: irradiance-scaled capacity, cut down to
the commanded setpoint when the setpoint is lower; zero when disabled. -/
def Inverter.realPower (inv : Inverter) : ℚ :=
  if inv.isEnabled then
    let newRealPower := inv.irradiance / 950 * inv.maxRealPower
    if inv.realPowerSp < newRealPower then inv.realPowerSp else newRealPower
  else 0

/-- `Inverter.reactivePower` property. -/
def Inverter.reactivePower (inv : Inverter) : ℚ :=
  if inv.isEnabled then
    let newReactivePower := inv.maxReactivePower
    if inv.reactivePowerSp < newReactivePower then inv.reactivePowerSp
    else newReactivePower
  else 0

/-- `Inverter.writeModbus`: export telemetry into input registers 1..7. -/
def Inverter.writeModbus (inv : Inverter) (rf : RegFile) : RegFile :=
  let inputs : List ℚ :=
    [inv.realPower, inv.reactivePower,
     inv.voltageL1 * 100, inv.voltageL2 * 100, inv.voltageL3 * 100,
     inv.maxRealPower, inv.maxReactivePower]
  rf.setValues 4 1 (inputs.map pyInt)

/-- `Inverter.readModbus`: import setpoints from holding registers 1..2 and
the enable flag from coil 1 (Python truthiness of the stored cell). -/
def Inverter.readModbus (inv : Inverter) (rf : RegFile) : Inverter :=
  let holdings := rf.getValues 3 1 2
  let coils := rf.getValues 1 1 1
  { inv with
    realPowerSp := (holdings.getD 0 0 : ℤ)
    reactivePowerSp := (holdings.getD 1 0 : ℤ)
    isEnabled := decide (coils.getD 0 0 ≠ 0) }

/-- `Module.update`, as inherited by `Inverter`: the per-tick update only
calls `writeModbus`; the device state itself is left untouched and no
register read happens. -/
def Inverter.update (inv : Inverter) (rf : RegFile) : Inverter × RegFile :=
  (inv, inv.writeModbus rf)

/-- Modelled from the spec: the per-device tick update as §4.4/§2 describe
it — "pulls external commands from its register file, recomputes its
outputs, pushes them back to its register file", i.e. `readModbus` before
the recompute/export.  Used only to compare against `Inverter.update`. -/
def Inverter.readFirstUpdate (inv : Inverter) (rf : RegFile) :
    Inverter × RegFile :=
  let inv' := inv.readModbus rf
  (inv', inv'.writeModbus rf)

/-! ## Transformer (modules.py, class Transformer) -/

/-- State of a sim transformer module.  `turnsRatio` models the source
field `ratio` (default 3.8); the other fields are the private backing
fields `_realPower`, ..., `_voltageL3`. -/
structure Transformer where
  realPowerB : ℚ := 0
  reactivePowerB : ℚ := 0
  voltageL1B : ℚ := 0
  voltageL2B : ℚ := 0
  voltageL3B : ℚ := 0
  turnsRatio : ℚ := 19 / 5
deriving DecidableEq, Repr

/-- `Transformer.voltageL1` property: secondary voltage = primary × ratio. -/
def Transformer.voltageL1 (t : Transformer) : ℚ := t.voltageL1B * t.turnsRatio

/-- `Transformer.voltageL2` property. -/
def Transformer.voltageL2 (t : Transformer) : ℚ := t.voltageL2B * t.turnsRatio

/-- `Transformer.voltageL3` property. -/
def Transformer.voltageL3 (t : Transformer) : ℚ := t.voltageL3B * t.turnsRatio

/-! ## Breaker (modules.py, class Breaker) -/

/-- State of a sim breaker module.  The `...B` fields are the private
backing fields `_realPower`, ..., `_frequency`; `closeCommand` is the
command cell read from coil 1 (a Python int, default 1); `moduleGroup`
is assigned by the device-graph builder. -/
structure Breaker where
  realPowerB : ℚ := 0
  reactivePowerB : ℚ := 0
  voltageL1B : ℚ := 0
  voltageL2B : ℚ := 0
  voltageL3B : ℚ := 0
  frequencyB : ℚ := 60
  closeCommand : ℤ := 1
  moduleGroup : String := "Modules"
deriving DecidableEq, Repr

/-- `Breaker.isBreakerClosed` property: Python `not self.closeCommand`,
true exactly when the command cell holds zero. -/
def Breaker.isBreakerClosed (b : Breaker) : Bool :=
  decide (b.closeCommand = 0)

/-- `Breaker.realPower` property: zero while `isBreakerClosed` holds,
otherwise the backing field. -/
def Breaker.realPower (b : Breaker) : ℚ :=
  if b.isBreakerClosed then 0 else b.realPowerB

/-- `Breaker.reactivePower` property. -/
def Breaker.reactivePower (b : Breaker) : ℚ :=
  if b.isBreakerClosed then 0 else b.reactivePowerB

/-- `Breaker.voltageL1` property. -/
def Breaker.voltageL1 (b : Breaker) : ℚ :=
  if b.isBreakerClosed then 0 else b.voltageL1B

/-- `Breaker.voltageL2` property. -/
def Breaker.voltageL2 (b : Breaker) : ℚ :=
  if b.isBreakerClosed then 0 else b.voltageL2B

/-- `Breaker.voltageL3` property. -/
def Breaker.voltageL3 (b : Breaker) : ℚ :=
  if b.isBreakerClosed then 0 else b.voltageL3B

/-- `Breaker.frequency` property. -/
def Breaker.frequency (b : Breaker) : ℚ :=
  if b.isBreakerClosed then 0 else b.frequencyB

/-- `Breaker.writeModbus`: export telemetry into input registers 1..7 and
the closed status into discrete input 1.  The power-factor cell is kept
symbolic at 0 here; none of the verified claims reads it (its exact value
involves a real square root, see `Breaker.powerFactor`). -/
def Breaker.writeModbusApprox (b : Breaker) (rf : RegFile) : RegFile :=
  let inputs : List ℚ :=
    [b.voltageL1 * 100, b.voltageL2 * 100, b.voltageL3 * 100,
     b.realPower, b.reactivePower, 0, b.frequency * 100]
  let rf := rf.setValues 4 1 (inputs.map pyInt)
  rf.setValues 2 1 [if b.isBreakerClosed then 1 else 0]

/-- `Breaker.update` (modules.py lines 250..301): pulls the connection
lists, aggregates either the connected inverters (feeder breakers) or the
connected feeder breakers and transformers (main breakers), stores the
results in the backing fields, and exports.  The early `return` on a
missing connection list skips everything including the export.  Returns
the updated breaker, the (possibly re-enabled) inverters and the register
file. -/
def Breaker.update (b : Breaker) (inverters : List Inverter)
    (feederBreakers : List Breaker) (transformers : List Transformer)
    (rf : RegFile) : Breaker × List Inverter × RegFile :=
  if b.moduleGroup = "feederBreakers" then
    if inverters = [] then (b, inverters, rf)
    else
      let combinedRealPower :=
        inverters.foldl (fun acc i => acc + i.realPower) 0
      let combinedReactivePower :=
        inverters.foldl (fun acc i => acc + i.reactivePower) 0
      let combinedVoltageL1 :=
        (inverters.foldl (fun acc i => acc + i.voltageL1) 0) / (inverters.length : ℚ)
      let combinedVoltageL2 :=
        (inverters.foldl (fun acc i => acc + i.voltageL2) 0) / (inverters.length : ℚ)
      let combinedVoltageL3 :=
        (inverters.foldl (fun acc i => acc + i.voltageL3) 0) / (inverters.length : ℚ)
      let inverters' :=
        inverters.map (fun i => { i with isEnabled := decide (b.closeCommand ≠ 0) })
      let b' := { b with
        realPowerB := combinedRealPower
        reactivePowerB := combinedReactivePower
        voltageL1B := combinedVoltageL1
        voltageL2B := combinedVoltageL2
        voltageL3B := combinedVoltageL3 }
      (b', inverters', b'.writeModbusApprox rf)
  else if b.moduleGroup = "mainBreakers" then
    if feederBreakers = [] then (b, inverters, rf)
    else
      let combinedRealPower :=
        feederBreakers.foldl (fun acc x => acc + x.realPower) 0
      let combinedReactivePower :=
        feederBreakers.foldl (fun acc x => acc + x.reactivePower) 0
      let combinedVoltageL1 :=
        transformers.foldl (fun acc t => acc + t.voltageL1) 0
      let combinedVoltageL2 :=
        transformers.foldl (fun acc t => acc + t.voltageL2) 0
      let combinedVoltageL3 :=
        transformers.foldl (fun acc t => acc + t.voltageL3) 0
      let b' := { b with
        realPowerB := combinedRealPower
        reactivePowerB := combinedReactivePower
        voltageL1B := combinedVoltageL1
        voltageL2B := combinedVoltageL2
        voltageL3B := combinedVoltageL3 }
      (b', inverters, b'.writeModbusApprox rf)
  else
    let b' := { b with
      realPowerB := 0, reactivePowerB := 0,
      voltageL1B := 0, voltageL2B := 0, voltageL3B := 0 }
    (b', inverters, b'.writeModbusApprox rf)

/-! ## Meter (modules.py, class Meter) -/

/-- State of a sim meter module (the fields the verified claims use). -/
structure Meter where
  realPower : ℚ := 0
  reactivePower : ℚ := 0
  voltageL1 : ℚ := 0
  voltageL2 : ℚ := 0
  voltageL3 : ℚ := 0
  frequency : ℚ := 60
deriving DecidableEq, Repr

/-- `Meter.powerFactor` property: 1 when reactive power is (Python-)falsy,
otherwise `abs(q)/q * p / sqrt(p² + q²)` over the reals. -/
noncomputable def Meter.powerFactor (m : Meter) : ℝ :=
  if (m.reactivePower : ℝ) = 0 then 1
  else |(m.reactivePower : ℝ)| / (m.reactivePower : ℝ) * (m.realPower : ℝ) /
    Real.sqrt ((m.realPower : ℝ) ^ 2 + (m.reactivePower : ℝ) ^ 2)

/-- `Breaker.powerFactor` property: same formula, over the breaker's
derived (status-gated) real and reactive power. -/
noncomputable def Breaker.powerFactor (b : Breaker) : ℝ :=
  if (b.reactivePower : ℝ) = 0 then 1
  else |(b.reactivePower : ℝ)| / (b.reactivePower : ℝ) * (b.realPower : ℝ) /
    Real.sqrt ((b.realPower : ℝ) ^ 2 + (b.reactivePower : ℝ) ^ 2)

/-! ## Device-graph builder (simulator.py, Simulator.generateDevices) -/

/-- A named device as seen by the connection-resolution pass. -/
structure DeviceRef where
  name : String
deriving DecidableEq, Repr

/-- The second pass of `generateDevices` (lines 188..203), for one
connection entry: `[d for d in self.devices[inputType] if d.name in
device.connections[inputType]]`. -/
def resolveGroup (pool : List DeviceRef) (wanted : List String) :
    List DeviceRef :=
  pool.filter (fun d => decide (d.name ∈ wanted))

/-- The second pass over a device's whole `connections` map: each group
name is replaced by the filtered device list from that group's pool. -/
def resolveConnections (devicesOf : String → List DeviceRef)
    (conns : List (String × List String)) : List (String × List DeviceRef) :=
  conns.map (fun p => (p.1, resolveGroup (devicesOf p.1) p.2))

/-! ## Scheduler tick (simulator.py, Simulator.updateDevices / start)

`updateDevices` runs `device.update()` over the flattened device list with
no per-device exception handling; the `try` in `start` wraps the whole
pass, logs and then proceeds with the next tick.  One device is abstracted
as a state plus a fallible step function. -/

/-- One scheduled device: its current state and its fallible update. -/
structure SimDevice where
  state : ℤ
  step : ℤ → Except String ℤ

/-- The device state after a successful step, unchanged after a failure. -/
def SimDevice.afterStep (d : SimDevice) : SimDevice :=
  match d.step d.state with
  | Except.ok s => { d with state := s }
  | Except.error _ => d

/-- `Simulator.updateDevices`: update each device in order; the first
raised error aborts the loop (the exception propagates to `start`, which
logs it — returned here as the `Option String`), leaving the faulty
device and every device after it untouched. -/
def updateDevices : List SimDevice → List SimDevice × Option String
  | [] => ([], none)
  | d :: rest =>
    match d.step d.state with
    | Except.error e => (d :: rest, some e)
    | Except.ok s =>
      let r := updateDevices rest
      ({ d with state := s } :: r.1, r.2)

/-- Modelled from the spec: the per-tick pass §4.4 describes — "On any
single-device update failure, log and continue with the remaining devices
for that tick".  Used only to compare against `updateDevices`. -/
def updateDevicesIsolated : List SimDevice → List SimDevice
  | [] => []
  | d :: rest => d.afterStep :: updateDevicesIsolated rest

/-- A device whose update always raises. -/
def failDev : SimDevice := ⟨0, fun _ => Except.error "boom"⟩

/-- A device whose update increments its state. -/
def stepDev : SimDevice := ⟨0, fun s => Except.ok (s + 1)⟩

/-! ## Server context (dataStores.py, buildContext)

`buildContext` allocates `copy.deepcopy(baseDataStore)` per device slave
id.  Python aliasing is made explicit through a heap: the context maps a
slave id to a heap index, and each `deepcopy` allocates a fresh cell. -/

/-- The modbus server context: slave id → heap reference, plus the heap
of register files. -/
structure ServerContext where
  refOf : ℕ → Option ℕ
  heap : List RegFile

/-- The allocation loop of `buildContext`: each device's slave id is bound
to a freshly allocated copy of `baseDataStore`. -/
def buildContextAux : List ℕ → ServerContext → ServerContext
  | [], ctx => ctx
  | i :: ids, ctx =>
    buildContextAux ids
      ⟨fun x => if x = i then some ctx.heap.length else ctx.refOf x,
       ctx.heap ++ [baseDataStore]⟩

/-- `buildContext` over the flattened list of device slave ids. -/
def buildContext (ids : List ℕ) : ServerContext :=
  buildContextAux ids ⟨fun _ => none, []⟩

/-- A write through the context: mutate the register file the slave id's
reference points at. -/
def ServerContext.setValues (ctx : ServerContext) (slaveId fx a : ℕ)
    (vs : List ℤ) : ServerContext :=
  match ctx.refOf slaveId with
  | none => ctx
  | some r =>
    { ctx with
      heap := ctx.heap.set r ((ctx.heap.getD r baseDataStore).setValues fx a vs) }

/-- A read through the context. -/
def ServerContext.getValues (ctx : ServerContext) (slaveId fx a count : ℕ) :
    List ℤ :=
  match ctx.refOf slaveId with
  | none => []
  | some r => (ctx.heap.getD r baseDataStore).getValues fx a count

/-- Well-formedness the allocation loop maintains: every reference is into
the heap, and distinct slave ids hold distinct references. -/
def CtxInv (ctx : ServerContext) : Prop :=
  (∀ x r, ctx.refOf x = some r → r < ctx.heap.length) ∧
  (∀ x y rx ry, x ≠ y → ctx.refOf x = some rx → ctx.refOf y = some ry →
    rx ≠ ry)

/-! ## Simulation controller (modules.py, class SimulationController) -/

/-- A Python runtime error. -/
inductive PyError where
  | attributeError
deriving DecidableEq, Repr

/-- Controller state; defaults are those of
`SimulationController.__init__`. -/
structure SimulationController where
  simWeatherEnabled : Bool := false
  irradiance : ℚ := 900
  poaMax : ℚ := 1000
  poaMin : ℚ := 0
  irradianceDeviation : ℚ := 20
  tempDeviation : ℚ := 0
  voltageStepDifference : ℚ := 0
  acLossRatio : ℚ := 98
  freqDroop : ℚ := 0
  voltageDeviation : ℚ := 5
  voltageHighLimit : ℚ := 142
  voltageLowLimit : ℚ := 134
  weatherState : ℤ := 0
  voltageStepCommand : ℤ := 0
  nominalGridVoltage : ℚ := 138
  voltageEffectPerVar : ℚ := 1 / 2000
  voltageMaxDeviation : ℚ := 1 / 20
  voltageChangeFromPlant : ℚ := 0
  reactivePowerMaxDeviation : ℚ := 25
deriving DecidableEq, Repr

/-- The attribute access `self.self` at modules.py line 650:
`SimulationController` has no attribute named `self`, so the lookup
raises `AttributeError` before any assignment happens. -/
def SimulationController.selfLookup (_c : SimulationController) :
    Except PyError SimulationController :=
  Except.error PyError.attributeError

/-- `SimulationController.readModbus`: reads holding registers 1..9, then
executes `self.self.irradianceDeviation = values[0]`, whose `self.self`
lookup raises; the remaining assignments (lines 651..661) are dead code
and are kept after the failing bind. -/
def SimulationController.readModbus (c : SimulationController)
    (rf : RegFile) : Except PyError SimulationController := do
  let values := rf.getValues 3 1 9
  let c' ← c.selfLookup
  let _ := c'
  let coils := rf.getValues 1 1 1
  pure { c with
    tempDeviation := (values.getD 1 0 : ℤ)
    voltageStepDifference := (values.getD 2 0 : ℤ)
    acLossRatio := (values.getD 3 0 : ℤ)
    freqDroop := (values.getD 4 0 : ℤ)
    voltageDeviation := (values.getD 5 0 : ℤ)
    voltageHighLimit := (values.getD 6 0 : ℤ)
    voltageLowLimit := (values.getD 7 0 : ℤ)
    weatherState := values.getD 8 0
    voltageStepCommand := coils.getD 0 0 }

/-! ## Weather state machine (SimulationController.update, lines 549..644)

The weather block is driven by `random.randint` draws; these are modelled
by an arbitrary draw stream `rng : ℕ → ℤ` consumed left to right with an
explicit counter (the grid-disturbance draws earlier in `update` and the
per-inverter noise draws after the block are threaded through the same
stream but never touch `weatherState` or the controller's `irradiance`,
the two variables the weather block owns). -/

/-- The irradiance clamp pattern of each weather branch:
`if x > hi: x = hi elif x < lo: x = lo`. -/
def pyClamp (lo hi x : ℚ) : ℚ :=
  if x > hi then hi else if x < lo then lo else x

/-- Loop-carried data of the dawn/dusk ramp loops: the moving `poaMin`
and `poaMax` band, the irradiance accumulator and the draw counter. -/
structure RampState where
  poaMin : ℚ
  poaMax : ℚ
  irr : ℚ
  k : ℕ
deriving DecidableEq, Repr

/-- One dawn-ramp iteration (weather state 0): an occasional ×10 spike
multiplier, a deviation draw from `randint(-10, 75)`, clamp into the
current band, then widen the band by (+75, +80). -/
def dawnIterOnce (devn : ℚ) (rng : ℕ → ℤ) (s : RampState) : RampState :=
  let m : ℚ := if rng s.k = 0 then 10 else 1
  let poaDeviation : ℚ := (rng (s.k + 1) : ℚ) * devn * m / 100
  ⟨s.poaMin + 75, s.poaMax + 80,
   pyClamp s.poaMin s.poaMax (s.irr + poaDeviation), s.k + 2⟩

/-- The 60-iteration dawn-ramp loop. -/
def dawnIter (devn : ℚ) (rng : ℕ → ℤ) : ℕ → RampState → RampState
  | 0, s => s
  | n + 1, s => dawnIter devn rng n (dawnIterOnce devn rng s)

/-- One dusk-ramp iteration (weather state 4): as the dawn iteration but
narrowing the band by (−75, −80) with both bounds floored at zero. -/
def duskIterOnce (devn : ℚ) (rng : ℕ → ℤ) (s : RampState) : RampState :=
  let m : ℚ := if rng s.k = 0 then 10 else 1
  let poaDeviation : ℚ := (rng (s.k + 1) : ℚ) * devn * m / 100
  let newMin : ℚ := if s.poaMin - 75 < 0 then 0 else s.poaMin - 75
  let newMax : ℚ := if s.poaMax - 80 < 0 then 0 else s.poaMax - 80
  ⟨newMin, newMax, pyClamp s.poaMin s.poaMax (s.irr + poaDeviation), s.k + 2⟩

/-- The 60-iteration dusk-ramp loop. -/
def duskIter (devn : ℚ) (rng : ℕ → ℤ) : ℕ → RampState → RampState
  | 0, s => s
  | n + 1, s => duskIter devn rng n (duskIterOnce devn rng s)

/-- The weather variables the block owns: the state number, the
irradiance accumulator and the draw counter. -/
structure WState where
  weatherState : ℤ
  irradiance : ℚ
  k : ℕ
deriving DecidableEq, Repr

/-- Weather state 0 block: dawn ramp, then `weatherState = 1`. -/
def weatherBlock0 (devn : ℚ) (rng : ℕ → ℤ) (s : WState) : WState :=
  if s.weatherState = 0 then
    let r := dawnIter devn rng 60 ⟨0, 200, s.irradiance, s.k⟩
    ⟨1, r.irr, r.k⟩
  else s

/-- Weather state 1 / state 2 block (`if`/`elif` in the source): a single
bounded random-walk step inside [800, 950] (state 1) or [300, 950] with
wider multipliers (state 2). -/
def weatherBlock12 (devn : ℚ) (rng : ℕ → ℤ) (s : WState) : WState :=
  if s.weatherState = 1 then
    let m : ℚ := if rng s.k = 0 then 10 else 1
    let poaDeviation : ℚ := (rng (s.k + 1) : ℚ) * devn * m / 100
    ⟨1, pyClamp 800 950 (s.irradiance + poaDeviation), s.k + 2⟩
  else if s.weatherState = 2 then
    let m : ℚ := if rng s.k = 0 then 40 else 10
    let poaDeviation : ℚ := (rng (s.k + 1) : ℚ) * devn * m / 100
    ⟨2, pyClamp 300 950 (s.irradiance + poaDeviation), s.k + 2⟩
  else s

/-- Weather state 4 block: dusk ramp, then `weatherState = 5`. -/
def weatherBlock4 (devn : ℚ) (rng : ℕ → ℤ) (s : WState) : WState :=
  if s.weatherState = 4 then
    let r := duskIter devn rng 60 ⟨100, 500, s.irradiance, s.k⟩
    ⟨5, r.irr, r.k⟩
  else s

/-- Weather state 5 block: irradiance forced to zero (the source writes it
thirty times over), then `weatherState = 0`. -/
def weatherBlock5 (s : WState) : WState :=
  if s.weatherState = 5 then ⟨0, 0, s.k⟩ else s

/-- One tick's weather step: the four blocks in source order.  The blocks
are sequential `if` statements (only 1/2 share an `elif`), so a tick that
starts in state 0 also runs the state-1 branch, and one that starts in
state 4 also runs the state-5 branch, within the same step. -/
def weatherStep (devn : ℚ) (rng : ℕ → ℤ) (s : WState) : WState :=
  weatherBlock5 (weatherBlock4 devn rng
    (weatherBlock12 devn rng (weatherBlock0 devn rng s)))

/-- The controller's weather variables at start-up, with the default
parameters of `__init__`: state 0, irradiance 900. -/
def initialWState : WState := ⟨0, 900, 0⟩

/-- The weather variables after `n` ticks with weather simulation
enabled. -/
def weatherTicks (devn : ℚ) (rng : ℕ → ℤ) : ℕ → WState
  | 0 => initialWState
  | n + 1 => weatherStep devn rng (weatherTicks devn rng n)

/-- Mid-day plateau regime of the weather machine: state 1 with
irradiance inside the [800, 950] band.  Every tick taken from the default
start state lands here. -/
def Mid (s : WState) : Prop :=
  s.weatherState = 1 ∧ 800 ≤ s.irradiance ∧ s.irradiance ≤ 950

/-! ## Helper lemmas -/

theorem pyClamp_bounds (lo hi x : ℚ) (h : lo ≤ hi) :
    lo ≤ pyClamp lo hi x ∧ pyClamp lo hi x ≤ hi := by
  unfold pyClamp
  split_ifs with h1 h2
  · exact ⟨h, le_refl hi⟩
  · exact ⟨le_refl lo, h⟩
  · exact ⟨le_of_not_lt h2, le_of_not_lt h1⟩

theorem foldl_add_eq {α : Type} (f : α → ℚ) :
    ∀ (l : List α) (a : ℚ),
      l.foldl (fun acc x => acc + f x) a = a + (l.map f).sum := by
  intro l
  induction l with
  | nil => simp
  | cons x xs ih =>
    intro a
    simp only [List.foldl_cons, List.map_cons, List.sum_cons, ih]
    ring

theorem abs_div_self_sign (q : ℝ) (h : q ≠ 0) : |q| / q = Real.sign q := by
  rcases lt_or_gt_of_ne h with hneg | hpos
  · rw [abs_of_neg hneg, Real.sign_of_neg hneg, neg_div, div_self h]
  · rw [abs_of_pos hpos, Real.sign_of_pos hpos, div_self h]

/-! ## C6: inverter real power -/

/-- Claim C6: when the inverter's enable flag is true its real power is
the minimum of the commanded setpoint and irradiance/950 × maxRealPower;
when the flag is false its real power is zero. -/
theorem inverter_realPower_clamp (inv : Inverter) :
    (inv.isEnabled = true →
      inv.realPower =
        min inv.realPowerSp (inv.irradiance / 950 * inv.maxRealPower)) ∧
    (inv.isEnabled = false → inv.realPower = 0) := by
  constructor
  · intro h
    unfold Inverter.realPower
    rw [h]
    simp only [if_true]
    rcases lt_or_ge inv.realPowerSp (inv.irradiance / 950 * inv.maxRealPower)
      with hlt | hge
    · rw [if_pos hlt, min_eq_left (le_of_lt hlt)]
    · rw [if_neg (not_lt.mpr hge), min_eq_right hge]
  · intro h
    unfold Inverter.realPower
    rw [h]
    simp

/-- Claim C6 witness: the enabled default inverter at irradiance 950. -/
theorem inverter_realPower_clamp_witness :
    Inverter.realPower { irradiance := 950 } = min 2000 (950 / 950 * 2000) :=
  (inverter_realPower_clamp { irradiance := 950 }).1 rfl

/-! ## C7: power factor of meters and breakers -/

/-- Claim C7: for every meter and every breaker, the power factor is
exactly 1 when reactive power is zero, and equals
sign(reactivePower) × realPower / sqrt(realPower² + reactivePower²)
when reactive power is non-zero. -/
theorem powerFactor_spec (m : Meter) (b : Breaker) :
    (m.reactivePower = 0 → m.powerFactor = 1) ∧
    (m.reactivePower ≠ 0 →
      m.powerFactor = Real.sign (m.reactivePower : ℝ) * (m.realPower : ℝ) /
        Real.sqrt ((m.realPower : ℝ) ^ 2 + (m.reactivePower : ℝ) ^ 2)) ∧
    (b.reactivePower = 0 → b.powerFactor = 1) ∧
    (b.reactivePower ≠ 0 →
      b.powerFactor = Real.sign (b.reactivePower : ℝ) * (b.realPower : ℝ) /
        Real.sqrt ((b.realPower : ℝ) ^ 2 + (b.reactivePower : ℝ) ^ 2)) := by
  refine ⟨?_, ?_, ?_, ?_⟩
  · intro h
    unfold Meter.powerFactor
    rw [if_pos (by exact_mod_cast congrArg (fun q : ℚ => (q : ℝ)) h)]
  · intro h
    have hq : (m.reactivePower : ℝ) ≠ 0 := by exact_mod_cast h
    unfold Meter.powerFactor
    rw [if_neg hq, abs_div_self_sign _ hq]
  · intro h
    unfold Breaker.powerFactor
    rw [if_pos (by exact_mod_cast congrArg (fun q : ℚ => (q : ℝ)) h)]
  · intro h
    have hq : (b.reactivePower : ℝ) ≠ 0 := by exact_mod_cast h
    unfold Breaker.powerFactor
    rw [if_neg hq, abs_div_self_sign _ hq]

/-- Claim C7 witness: a meter with zero reactive power reads power factor
exactly 1, whatever its real power. -/
theorem powerFactor_spec_witness :
    Meter.powerFactor { realPower := 1234 } = 1 :=
  (powerFactor_spec { realPower := 1234 } {}).1 rfl

/-! ## C2: breaker isolation polarity -/

/-- Claim C2 counterexample: the default breaker (closeCommand = 1) has
derived-closed status false — the claim's "open breaker" — yet its
readouts pass the backing fields through: with `_realPower = 5` the
real-power readout is 5, not zero. -/
theorem breaker_isolation_counterexample :
    Breaker.isBreakerClosed ⟨5, 0, 0, 0, 0, 60, 1, "Modules"⟩ = false ∧
    Breaker.realPower ⟨5, 0, 0, 0, 0, 60, 1, "Modules"⟩ = 5 ∧
    ¬ Breaker.realPower ⟨5, 0, 0, 0, 0, 60, 1, "Modules"⟩ = 0 := by
  refine ⟨rfl, rfl, by norm_num [Breaker.realPower, Breaker.isBreakerClosed]⟩

/-- Claim C2 amended: the readouts are exactly zero for every breaker
whose derived-closed status is TRUE (not false); derived-closed is the
negation of `closeCommand` (true exactly when the cell is 0), and the
default `closeCommand` is 1, so a default breaker is open with readouts
passing through. -/
theorem breaker_closed_readouts_zero (b : Breaker)
    (h : b.isBreakerClosed = true) :
    b.realPower = 0 ∧ b.reactivePower = 0 ∧
    b.voltageL1 = 0 ∧ b.voltageL2 = 0 ∧ b.voltageL3 = 0 ∧
    b.frequency = 0 ∧
    b.isBreakerClosed = decide (b.closeCommand = 0) ∧
    ({} : Breaker).closeCommand = 1 := by
  refine ⟨?_, ?_, ?_, ?_, ?_, ?_, rfl, rfl⟩ <;>
    simp [Breaker.realPower, Breaker.reactivePower, Breaker.voltageL1,
      Breaker.voltageL2, Breaker.voltageL3, Breaker.frequency, h]

/-- Claim C2 witness: a breaker whose close-command cell holds 0 is
derived-closed and all six readouts are zero despite non-zero backing
fields. -/
theorem breaker_closed_readouts_zero_witness :
    Breaker.realPower ⟨5, 4, 3, 2, 1, 60, 0, "Modules"⟩ = 0 ∧
    Breaker.reactivePower ⟨5, 4, 3, 2, 1, 60, 0, "Modules"⟩ = 0 ∧
    Breaker.voltageL1 ⟨5, 4, 3, 2, 1, 60, 0, "Modules"⟩ = 0 ∧
    Breaker.voltageL2 ⟨5, 4, 3, 2, 1, 60, 0, "Modules"⟩ = 0 ∧
    Breaker.voltageL3 ⟨5, 4, 3, 2, 1, 60, 0, "Modules"⟩ = 0 ∧
    Breaker.frequency ⟨5, 4, 3, 2, 1, 60, 0, "Modules"⟩ = 0 ∧
    Breaker.isBreakerClosed ⟨5, 4, 3, 2, 1, 60, 0, "Modules"⟩ =
      decide ((0 : ℤ) = 0) ∧
    ({} : Breaker).closeCommand = 1 :=
  breaker_closed_readouts_zero ⟨5, 4, 3, 2, 1, 60, 0, "Modules"⟩ rfl

/-! ## C1: no command import during the tick -/

/-- Claim C1 counterexample: the claim requires the per-device update to
equal the read-commands-first pipeline.  On the default register file
(coil 1 = 0, i.e. "disable") and an enabled inverter at irradiance 950,
`Inverter.update` — the update the tick loop invokes — neither imports
the disable command (`isEnabled` stays true) nor reflects it in the
exported real power (2000, where the read-first pipeline exports 0), so
the two pipelines differ at this input. -/
theorem tick_update_counterexample :
    (Inverter.update { irradiance := 950 } baseDataStore).1.isEnabled
      = true ∧
    Inverter.realPower (Inverter.update { irradiance := 950 }
      baseDataStore).1 = 2000 ∧
    ((Inverter.readFirstUpdate { irradiance := 950 } baseDataStore).1.isEnabled)
      = false ∧
    Inverter.realPower (Inverter.readFirstUpdate { irradiance := 950 }
      baseDataStore).1 = 0 ∧
    ¬ (Inverter.update { irradiance := 950 } baseDataStore).1
        = (Inverter.readFirstUpdate { irradiance := 950 } baseDataStore).1 := by
  refine ⟨rfl, ?_, by decide, by decide, by decide⟩
  norm_num [Inverter.update, Inverter.realPower]

/-- Claim C1 amended: the per-device update invoked by the tick loop only
recomputes outputs and exports them to the register file; it performs no
register read, so command fields (inverter setpoints and enable, breaker
close command) are never imported during a tick. -/
theorem tick_update_never_imports (inv : Inverter) (rf : RegFile)
    (b : Breaker) (invs : List Inverter) (fbs : List Breaker)
    (tfs : List Transformer) (rf2 : RegFile) :
    Inverter.update inv rf = (inv, inv.writeModbus rf) ∧
    (Breaker.update b invs fbs tfs rf2).1.closeCommand = b.closeCommand ∧
    (Breaker.update b invs fbs tfs rf2).1.moduleGroup = b.moduleGroup := by
  refine ⟨rfl, ?_, ?_⟩ <;>
    · unfold Breaker.update
      split_ifs <;> rfl

/-! ## C3: main breaker aggregation -/

/-- Claim C3 counterexample: a main breaker wired to one feeder breaker
and two transformers whose (ratio-scaled) phase-1 voltages are 38 each.
One update stores 76 — the sum — in the phase-1 voltage backing field,
not the arithmetic average 38. -/
theorem mainBreaker_update_counterexample :
    (Breaker.update ⟨0, 0, 0, 0, 0, 60, 1, "mainBreakers"⟩ []
        [⟨7, 3, 0, 0, 0, 60, 1, "feederBreakers"⟩]
        [⟨0, 0, 10, 10, 10, 19 / 5⟩, ⟨0, 0, 10, 10, 10, 19 / 5⟩]
        baseDataStore).1.voltageL1B = 76 ∧
    ¬ ((76 : ℚ) = (38 + 38) / 2) := by
  refine ⟨?_, by norm_num⟩
  have h : ¬ ("mainBreakers" = "feederBreakers") := by decide
  norm_num [Breaker.update, Transformer.voltageL1, h]

/-- Claim C3 amended: for every main breaker with a non-empty feeder
list, one update sets its real/reactive power backing fields to the sums
over the connected feeder breakers' derived powers, and sets each phase
voltage backing field to the SUM (not the average) of the connected
transformers' corresponding derived phase voltages. -/
theorem mainBreaker_update_sums (b : Breaker) (invs : List Inverter)
    (feeders : List Breaker) (tfs : List Transformer) (rf : RegFile)
    (hgrp : b.moduleGroup = "mainBreakers") (hne : feeders ≠ []) :
    (Breaker.update b invs feeders tfs rf).1.realPowerB
      = (feeders.map Breaker.realPower).sum ∧
    (Breaker.update b invs feeders tfs rf).1.reactivePowerB
      = (feeders.map Breaker.reactivePower).sum ∧
    (Breaker.update b invs feeders tfs rf).1.voltageL1B
      = (tfs.map Transformer.voltageL1).sum ∧
    (Breaker.update b invs feeders tfs rf).1.voltageL2B
      = (tfs.map Transformer.voltageL2).sum ∧
    (Breaker.update b invs feeders tfs rf).1.voltageL3B
      = (tfs.map Transformer.voltageL3).sum := by
  unfold Breaker.update
  rw [hgrp]
  rw [if_neg (by decide : ¬ ("mainBreakers" = "feederBreakers"))]
  rw [if_pos rfl, if_neg hne]
  refine ⟨?_, ?_, ?_, ?_, ?_⟩ <;>
    simp [foldl_add_eq]

/-- Claim C3 witness: the amended statement at one feeder breaker
(derived powers 7 and 3) and two transformers (derived phase voltages 38
each). -/
theorem mainBreaker_update_sums_witness :
    (Breaker.update ⟨0, 0, 0, 0, 0, 60, 1, "mainBreakers"⟩ []
        [⟨7, 3, 0, 0, 0, 60, 1, "feederBreakers"⟩]
        [⟨0, 0, 10, 10, 10, 19 / 5⟩, ⟨0, 0, 10, 10, 10, 19 / 5⟩]
        baseDataStore).1.realPowerB
      = (([⟨7, 3, 0, 0, 0, 60, 1, "feederBreakers"⟩] :
          List Breaker).map Breaker.realPower).sum ∧
    (Breaker.update ⟨0, 0, 0, 0, 0, 60, 1, "mainBreakers"⟩ []
        [⟨7, 3, 0, 0, 0, 60, 1, "feederBreakers"⟩]
        [⟨0, 0, 10, 10, 10, 19 / 5⟩, ⟨0, 0, 10, 10, 10, 19 / 5⟩]
        baseDataStore).1.reactivePowerB
      = (([⟨7, 3, 0, 0, 0, 60, 1, "feederBreakers"⟩] :
          List Breaker).map Breaker.reactivePower).sum ∧
    (Breaker.update ⟨0, 0, 0, 0, 0, 60, 1, "mainBreakers"⟩ []
        [⟨7, 3, 0, 0, 0, 60, 1, "feederBreakers"⟩]
        [⟨0, 0, 10, 10, 10, 19 / 5⟩, ⟨0, 0, 10, 10, 10, 19 / 5⟩]
        baseDataStore).1.voltageL1B
      = (([⟨0, 0, 10, 10, 10, 19 / 5⟩, ⟨0, 0, 10, 10, 10, 19 / 5⟩] :
          List Transformer).map Transformer.voltageL1).sum ∧
    (Breaker.update ⟨0, 0, 0, 0, 0, 60, 1, "mainBreakers"⟩ []
        [⟨7, 3, 0, 0, 0, 60, 1, "feederBreakers"⟩]
        [⟨0, 0, 10, 10, 10, 19 / 5⟩, ⟨0, 0, 10, 10, 10, 19 / 5⟩]
        baseDataStore).1.voltageL2B
      = (([⟨0, 0, 10, 10, 10, 19 / 5⟩, ⟨0, 0, 10, 10, 10, 19 / 5⟩] :
          List Transformer).map Transformer.voltageL2).sum ∧
    (Breaker.update ⟨0, 0, 0, 0, 0, 60, 1, "mainBreakers"⟩ []
        [⟨7, 3, 0, 0, 0, 60, 1, "feederBreakers"⟩]
        [⟨0, 0, 10, 10, 10, 19 / 5⟩, ⟨0, 0, 10, 10, 10, 19 / 5⟩]
        baseDataStore).1.voltageL3B
      = (([⟨0, 0, 10, 10, 10, 19 / 5⟩, ⟨0, 0, 10, 10, 10, 19 / 5⟩] :
          List Transformer).map Transformer.voltageL3).sum :=
  mainBreaker_update_sums ⟨0, 0, 0, 0, 0, 60, 1, "mainBreakers"⟩ []
    [⟨7, 3, 0, 0, 0, 60, 1, "feederBreakers"⟩]
    [⟨0, 0, 10, 10, 10, 19 / 5⟩, ⟨0, 0, 10, 10, 10, 19 / 5⟩]
    baseDataStore rfl (by decide)

/-! ## C4: connection-name resolution -/

/-- Claim C4 counterexample: a topology whose feeder connection list
names "ghost", a name matching no inverter.  The resolution pass
succeeds — it is a total filter, the repository defines no
`ConfigurationError` and raises nothing here — and silently produces a
graph whose connection list lacks the "ghost" entry. -/
theorem resolve_counterexample :
    resolveConnections (fun _ => [⟨"inverter1"⟩])
        [("inverters", ["inverter1", "ghost"])]
      = [("inverters", [⟨"inverter1"⟩])] ∧
    (resolveGroup [⟨"inverter1"⟩] ["inverter1", "ghost"]).map DeviceRef.name
      = ["inverter1"] := by
  refine ⟨rfl, rfl⟩

/-- Claim C4 amended: the builder resolves each named connection list by
filtering the target group's pool by name; a resolved list contains
exactly the pool devices whose names were listed, so a name matching no
device in the target group is silently dropped (no error is raised — the
resolution is a total function) and the built graph simply lacks that
entry. -/
theorem resolveGroup_mem (pool : List DeviceRef) (wanted : List String)
    (d : DeviceRef) :
    d ∈ resolveGroup pool wanted ↔ d ∈ pool ∧ d.name ∈ wanted := by
  simp [resolveGroup, List.mem_filter]

/-! ## C5: no per-device failure isolation inside a tick -/

/-- Claim C5 counterexample: a tick over a failing device followed by a
healthy one.  `updateDevices` aborts at the failure: the healthy device
behind it keeps state 0 — its update never ran that tick — while the
isolated per-device handling the claim describes would have advanced it
to 1. -/
theorem updateDevices_counterexample :
    (updateDevices [failDev, stepDev]).1.map SimDevice.state = [0, 0] ∧
    (updateDevices [failDev, stepDev]).2 = some "boom" ∧
    (updateDevicesIsolated [failDev, stepDev]).map SimDevice.state
      = [0, 1] :=
  ⟨rfl, rfl, rfl⟩

/-- Claim C5 amended: when a device's update raises, the devices before
it in the tick order have already been updated, the error propagates out
of `updateDevices` (where `start`'s handler logs it and proceeds with the
next tick), and the faulty device together with every device after it
retains its prior state — the remaining devices of that tick are skipped,
not executed. -/
theorem updateDevices_abort (pre : List SimDevice) (d : SimDevice)
    (rest : List SimDevice) (e : String)
    (hpre : ∀ x ∈ pre, ∃ s, x.step x.state = Except.ok s)
    (hd : d.step d.state = Except.error e) :
    updateDevices (pre ++ d :: rest)
      = (pre.map SimDevice.afterStep ++ d :: rest, some e) := by
  induction pre with
  | nil =>
    simp [updateDevices, hd]
  | cons x xs ih =>
    obtain ⟨s, hs⟩ := hpre x (List.mem_cons_self x xs)
    have ih' := ih (fun y hy => hpre y (List.mem_cons_of_mem x hy))
    simp [updateDevices, hs, ih', SimDevice.afterStep]

/-- Claim C5 witness: a healthy device, then a failing one, then another
healthy one — the first is updated, the error surfaces, the third keeps
its state. -/
theorem updateDevices_abort_witness :
    updateDevices ([stepDev] ++ failDev :: [stepDev])
      = ([stepDev].map SimDevice.afterStep ++ failDev :: [stepDev],
         some "boom") :=
  updateDevices_abort [stepDev] failDev [stepDev] "boom"
    (by
      intro x hx
      rw [List.mem_singleton] at hx
      subst hx
      exact ⟨1, rfl⟩)
    rfl

/-! ## C9: the simulation controller's broken command import -/

/-- Claim C9: for every register snapshot and every controller state,
`SimulationController.readModbus` raises `AttributeError` — the
`self.self` dereference on its first assignment fails — so the import
never returns an updated controller and never mutates any field. -/
theorem simController_readModbus_raises (c : SimulationController)
    (rf : RegFile) :
    c.readModbus rf = Except.error PyError.attributeError := rfl

/-! ## C10: per-address register-file independence -/

theorem buildContextAux_heap (ids : List ℕ) :
    ∀ ctx : ServerContext,
      (buildContextAux ids ctx).heap
        = ctx.heap ++ List.replicate ids.length baseDataStore := by
  induction ids with
  | nil => intro ctx; simp [buildContextAux]
  | cons i ids ih =>
    intro ctx
    simp [buildContextAux, ih, List.replicate_succ]

theorem buildContextAux_inv (ids : List ℕ) :
    ∀ ctx : ServerContext, CtxInv ctx → CtxInv (buildContextAux ids ctx) := by
  induction ids with
  | nil => intro ctx h; exact h
  | cons i ids ih =>
    intro ctx h
    apply ih
    obtain ⟨hb, hinj⟩ := h
    constructor
    · intro x r hx
      dsimp only at hx ⊢
      rw [List.length_append, List.length_singleton]
      by_cases hxi : x = i
      · rw [if_pos hxi] at hx
        injection hx with hx
        omega
      · rw [if_neg hxi] at hx
        have := hb x r hx
        omega
    · intro x y rx ry hxy hx hy
      dsimp only at hx hy
      by_cases hxi : x = i <;> by_cases hyi : y = i
      · exact absurd (hxi.trans hyi.symm) hxy
      · rw [if_pos hxi] at hx
        injection hx with hx
        rw [if_neg hyi] at hy
        have := hb y ry hy
        omega
      · rw [if_neg hxi] at hx
        rw [if_pos hyi] at hy
        injection hy with hy
        have := hb x rx hx
        omega
      · rw [if_neg hxi] at hx
        rw [if_neg hyi] at hy
        exact hinj x y rx ry hxy hx hy

theorem buildContext_inv (ids : List ℕ) : CtxInv (buildContext ids) := by
  apply buildContextAux_inv
  constructor
  · intro x r hx
    exact absurd hx (by simp)
  · intro x y rx ry hxy hx hy
    exact absurd hx (by simp)

/-- Claim C10: `buildContext` allocates one fresh deep copy of the base
datastore per device address (the heap is one `baseDataStore` per listed
id), and for distinct addresses the copies are distinct heap cells, so a
write to any bank of one address leaves every bank of the other address
unchanged. -/
theorem buildContext_isolated (ids : List ℕ)
    (a1 a2 fx a fx2 b2 cnt : ℕ) (vs : List ℤ) (h : a1 ≠ a2) :
    ((buildContext ids).setValues a1 fx a vs).getValues a2 fx2 b2 cnt
      = (buildContext ids).getValues a2 fx2 b2 cnt ∧
    (buildContext ids).heap = List.replicate ids.length baseDataStore := by
  constructor
  · obtain ⟨hb, hinj⟩ := buildContext_inv ids
    cases hr1 : (buildContext ids).refOf a1 with
    | none => simp [ServerContext.setValues, hr1]
    | some r1 =>
      cases hr2 : (buildContext ids).refOf a2 with
      | none =>
        simp [ServerContext.setValues, ServerContext.getValues, hr1, hr2]
      | some r2 =>
        have hne : r1 ≠ r2 := hinj a1 a2 r1 r2 h hr1 hr2
        simp [ServerContext.setValues, ServerContext.getValues, hr1, hr2,
          List.getElem?_set_ne hne]
  · simpa using buildContextAux_heap ids ⟨fun _ => none, []⟩

/-- Claim C10 witness: two devices at addresses 1 and 2; a write to
address 1's input registers leaves address 2's readout unchanged. -/
theorem buildContext_isolated_witness :
    ((buildContext [1, 2]).setValues 1 4 1 [9]).getValues 2 4 1 1
      = (buildContext [1, 2]).getValues 2 4 1 1 ∧
    (buildContext [1, 2]).heap = List.replicate ([1, 2] : List ℕ).length
      baseDataStore :=
  buildContext_isolated [1, 2] 1 2 4 1 4 1 1 [9] (by decide)

/-! ## C8: weather bounds -/

theorem weatherBlock0_to1 (devn : ℚ) (rng : ℕ → ℤ) (s : WState)
    (h : s.weatherState = 0) :
    (weatherBlock0 devn rng s).weatherState = 1 := by
  unfold weatherBlock0
  rw [if_pos h]

theorem weatherBlock0_skip (devn : ℚ) (rng : ℕ → ℤ) (s : WState)
    (h : s.weatherState ≠ 0) : weatherBlock0 devn rng s = s := by
  unfold weatherBlock0
  rw [if_neg h]

theorem weatherBlock12_mid (devn : ℚ) (rng : ℕ → ℤ) (s : WState)
    (h : s.weatherState = 1) : Mid (weatherBlock12 devn rng s) := by
  unfold weatherBlock12
  rw [if_pos h]
  exact ⟨rfl, (pyClamp_bounds 800 950 _ (by norm_num)).1,
    (pyClamp_bounds 800 950 _ (by norm_num)).2⟩

theorem weatherBlock12_skip (devn : ℚ) (rng : ℕ → ℤ) (s : WState)
    (h1 : s.weatherState ≠ 1) (h2 : s.weatherState ≠ 2) :
    weatherBlock12 devn rng s = s := by
  unfold weatherBlock12
  rw [if_neg h1, if_neg h2]

theorem weatherBlock4_skip (devn : ℚ) (rng : ℕ → ℤ) (s : WState)
    (h : s.weatherState ≠ 4) : weatherBlock4 devn rng s = s := by
  unfold weatherBlock4
  rw [if_neg h]

theorem weatherBlock5_skip (s : WState) (h : s.weatherState ≠ 5) :
    weatherBlock5 s = s := by
  unfold weatherBlock5
  rw [if_neg h]

theorem weatherStep_Mid_of0 (devn : ℚ) (rng : ℕ → ℤ) (s : WState)
    (h : s.weatherState = 0) : Mid (weatherStep devn rng s) := by
  have h1 := weatherBlock0_to1 devn rng s h
  have hmid := weatherBlock12_mid devn rng _ h1
  unfold weatherStep
  rw [weatherBlock4_skip devn rng _ (by rw [hmid.1]; norm_num),
    weatherBlock5_skip _ (by rw [hmid.1]; norm_num)]
  exact hmid

theorem weatherStep_Mid_of1 (devn : ℚ) (rng : ℕ → ℤ) (s : WState)
    (h : s.weatherState = 1) : Mid (weatherStep devn rng s) := by
  have h0 := weatherBlock0_skip devn rng s (by rw [h]; norm_num)
  have hmid := weatherBlock12_mid devn rng s h
  unfold weatherStep
  rw [h0, weatherBlock4_skip devn rng _ (by rw [hmid.1]; norm_num),
    weatherBlock5_skip _ (by rw [hmid.1]; norm_num)]
  exact hmid

theorem weatherStep_night_exit (devn : ℚ) (rng : ℕ → ℤ) (s : WState)
    (h5 : s.weatherState = 5) :
    (weatherStep devn rng s).weatherState = 0 ∧
    (weatherStep devn rng s).irradiance = 0 := by
  unfold weatherStep
  rw [weatherBlock0_skip devn rng s (by rw [h5]; norm_num),
    weatherBlock12_skip devn rng s (by rw [h5]; norm_num)
      (by rw [h5]; norm_num),
    weatherBlock4_skip devn rng s (by rw [h5]; norm_num)]
  unfold weatherBlock5
  rw [if_pos h5]
  exact ⟨rfl, rfl⟩

theorem weatherTicks_Mid (devn : ℚ) (rng : ℕ → ℤ) :
    ∀ n : ℕ, 1 ≤ n → Mid (weatherTicks devn rng n) := by
  intro n
  induction n with
  | zero => intro h; omega
  | succ n ih =>
    intro _
    cases n with
    | zero =>
      exact weatherStep_Mid_of0 devn rng initialWState rfl
    | succ m =>
      have hmid := ih (by omega)
      exact weatherStep_Mid_of1 devn rng _ hmid.1

/-- Claim C8: with weather simulation enabled and the default parameters
(irradiance deviation 20, start state 0 at irradiance 900), for every
draw stream and every tick count up to 10,000 the controller's irradiance
at the end of each tick stays inside [0, 1000]; and whenever the weather
state holds 5 at the start of a tick's weather step, after the step it
holds 0 with the irradiance forced to zero. -/
theorem weather_bounds (rng : ℕ → ℤ) (n : ℕ) (hn : n ≤ 10000) :
    (0 ≤ (weatherTicks 20 rng n).irradiance ∧
      (weatherTicks 20 rng n).irradiance ≤ 1000) ∧
    (∀ s : WState, s.weatherState = 5 →
      (weatherStep 20 rng s).weatherState = 0 ∧
      (weatherStep 20 rng s).irradiance = 0) := by
  constructor
  · cases n with
    | zero =>
      constructor <;> norm_num [weatherTicks, initialWState]
    | succ m =>
      have hmid := weatherTicks_Mid 20 rng (m + 1) (by omega)
      exact ⟨by linarith [hmid.2.1], by linarith [hmid.2.2]⟩
  · intro s h5
    exact weatherStep_night_exit 20 rng s h5

/-- Claim C8 witness: the all-zero draw stream after two ticks, plus the
state-5 exit at a concrete state. -/
theorem weather_bounds_witness :
    (0 ≤ (weatherTicks 20 (fun _ => 0) 2).irradiance ∧
      (weatherTicks 20 (fun _ => 0) 2).irradiance ≤ 1000) ∧
    (∀ s : WState, s.weatherState = 5 →
      (weatherStep 20 (fun _ => 0) s).weatherState = 0 ∧
      (weatherStep 20 (fun _ => 0) s).irradiance = 0) :=
  weather_bounds (fun _ => 0) 2 (by norm_num)

end SolarSim
